import Mathlib

/-!
Shallow embedding of `src/webapp/app.py`: a Flask web application that
performs an OAuth2/OIDC authorization-code flow with MSAL
(Microsoft Authentication Library), caches tokens in the per-user session,
calls Microsoft Graph, and enforces a role check on one route.

The MSAL library, the identity provider and the downstream Graph API are
external collaborators; they are modelled as an `Env` of deterministic
functions.  Session state is a record with one field per session key used by
the code (`user`, `auth_code_flow`, `token_cache`,
`msal_http_response_cache`) plus `extra` for any other session entries.
Token caches and the HTTP metadata cache are opaque serialized blobs,
modelled as `String`.

Flask semantics modelled by the dispatcher `handleRequest`:
raising `Unauthorized` in a handler transfers control to the registered
error handler `initiate_auth_code_flow` (with `request.url_rule.rule` equal
to the matched route's rule); raising `Forbidden` yields a 403 response; any
other uncaught Python exception yields a 500 response (`serverError`).
Session mutations performed before a raise persist (Flask-Session saves the
session object on request teardown regardless of the response status).
-/

namespace MsalWebApp

/-- Decoded ID-token claims.  The code only inspects the `roles` claim
(`"roles" not in user_claims or "admin" not in user_claims["roles"]`);
`roles = none` models a claims dictionary without a `roles` key, and
`other` carries the remaining claim entries opaquely. -/
structure Claims where
  roles : Option (List String)
  other : List (String × String)
deriving Repr, DecidableEq

/-- The session's `"user"` entry, stored at the end of the auth-code flow:
`{"id_token": result["id_token"], "id_token_claims": result["id_token_claims"]}`. -/
structure UserRec where
  id_token : String
  id_token_claims : Claims
deriving Repr, DecidableEq

/-- The dictionary returned by `msal_client.initiate_auth_code_flow`:
the provider's authorization endpoint URI (`auth_uri`) plus opaque flow
state (state/nonce/code-verifier), collapsed into `state`. -/
structure FlowBase where
  auth_uri : String
  state : String
deriving Repr, DecidableEq

/-- The session's `"auth_code_flow"` entry: the MSAL flow dictionary with the
application-added `"post_sign_in_url"` key. -/
structure Flow where
  base : FlowBase
  post_sign_in_url : String
deriving Repr, DecidableEq

/-- Per-user session state (Flask-Session).  `none` models an absent key.
`extra` stands for any session entries the application code never touches. -/
structure Session where
  user : Option UserRec
  auth_code_flow : Option Flow
  token_cache : Option String
  msal_http_response_cache : Option String
  extra : List (String × String)
deriving Repr, DecidableEq

/-- The empty session (a fresh browser session). -/
def Session.empty : Session :=
  { user := none, auth_code_flow := none, token_cache := none
    msal_http_response_cache := none, extra := [] }

/-- Python truthiness of `session.get("token_cache")`: the key must be
present and the serialized string non-empty (lines 158 and 208). -/
def Session.tokenCacheTruthy (s : Session) : Bool :=
  match s.token_cache with
  | none => false
  | some c => c ≠ ""

/-- The serialized cache handed to `msal.SerializableTokenCache` in
`authorized` (lines 157-159): deserialize the session blob when truthy,
otherwise start from an empty cache (serialized as `""`). -/
def Session.cacheIn (s : Session) : String :=
  match s.token_cache with
  | none => ""
  | some c => if c ≠ "" then c else ""

/-- A result dictionary returned by `acquire_token_silent`.
`access_token = none` models a dictionary without an `"access_token"` key
(e.g. an error dictionary), so that `result['access_token']` raises
`KeyError`. -/
structure SilentDict where
  access_token : Option String
deriving Repr, DecidableEq

/-- Outcome of `msal_client.acquire_token_silent` together with the state of
the hydrated token-cache object afterwards.  `result = none` models the
method returning Python `None` (complete cache miss); `newCache` is
`token_cache.serialize()` after the call and `changed` is
`token_cache.has_state_changed`. -/
structure SilentOutcome where
  result : Option SilentDict
  newCache : String
  changed : Bool
deriving Repr, DecidableEq

/-- Outcome of `msal_client.acquire_token_by_auth_code_flow`:
`raised` models the library raising (e.g. state mismatch), `errorDict`
models a returned dictionary carrying an `"error"` key and no `"id_token"`
(so `result["id_token"]` raises `KeyError`), and `ok` carries the id token,
its decoded claims, and the serialized token cache after the exchange. -/
inductive ExchangeResult where
  | raised
  | errorDict (newCache : String)
  | ok (id_token : String) (claims : Claims) (newCache : String)
deriving Repr, DecidableEq

/-- The external collaborators (MSAL client, identity provider, Graph),
as deterministic functions. -/
structure Env where
  /-- Result of `msal_client.initiate_auth_code_flow(scopes, redirect_uri)`:
  the authorization request whose `auth_uri` is the identity provider's
  authorization endpoint. -/
  initFlow : FlowBase
  /-- In-place mutation of the HTTP metadata cache performed by constructing
  (and using) a `ConfidentialClientApplication` with `http_cache=...`. -/
  httpUpdate : String → String
  /-- `acquire_token_by_auth_code_flow(flow, request.args)` given the flow,
  the callback query parameters, and the serialized input token cache. -/
  exchange : Flow → String → String → ExchangeResult
  /-- `msal.oauth2cli.oidc.decode_id_token`: `true` when decoding succeeds,
  `false` when it raises `RuntimeError` (expired or invalid token). -/
  decodeIdToken : String → Bool
  /-- `msal_client.get_accounts()` for a client hydrated with the given
  serialized token cache; elements are opaque account handles. -/
  getAccounts : String → List String
  /-- `acquire_token_silent(scopes, account)` given the serialized input
  token cache and the chosen account. -/
  silent : String → String → SilentOutcome

/-- An HTTP response as the user sees it: a redirect, a rendered template,
a 403 Forbidden page, or a 500 from an unhandled exception. -/
inductive Response where
  | redirect (location : String)
  | render (template : String)
  | forbidden (msg : String)
  | serverError (exn : String)
deriving Repr, DecidableEq

/-- Raw outcome of a route handler body, before Flask's error handling:
a normal response, a raised `Unauthorized`, a raised `Forbidden`, or any
other uncaught Python exception. -/
inductive RawResult where
  | ok (resp : Response)
  | unauthorized
  | forbiddenRaised (msg : String)
  | pyError (exn : String)
deriving Repr, DecidableEq

/-- The application's routes. -/
inductive Route where
  | index
  | authRedirect
  | graphRoute
  | adminRoute
  | logoutRoute
deriving Repr, DecidableEq

/-- The URL rule of each route (`request.url_rule.rule` when the route is
matched). -/
def Route.rule : Route → String
  | .index => "/"
  | .authRedirect => "/auth/redirect"
  | .graphRoute => "/graph"
  | .adminRoute => "/admin"
  | .logoutRoute => "/logout"

/-- The `Unauthorized` error handler (lines 71-121): pop any stale user,
build the auth-code flow with the MSAL client (hydrated with the session's
HTTP metadata cache), record the post-sign-in target
(`request.url_rule.rule`), store flow and metadata cache in the session,
and redirect to the provider's authorization endpoint (`auth_uri`). -/
def initiate_auth_code_flow (env : Env) (rule : String) (s : Session) :
    Response × Session :=
  let s1 : Session := { s with user := none }
  let http_cache := env.httpUpdate (s1.msal_http_response_cache.getD "")
  let flow : Flow := { base := env.initFlow, post_sign_in_url := rule }
  let s2 : Session := { s1 with auth_code_flow := some flow,
                                msal_http_response_cache := some http_cache }
  (Response.redirect flow.base.auth_uri, s2)

/-- The `/auth/redirect` handler `authorized` (lines 132-199).
`session.pop("auth_code_flow")` has no default, so a missing entry raises
`KeyError`.  Otherwise the token cache is hydrated from the session, the
client exchanges the code, and on success the serialized caches and the
user record are stored before redirecting to `post_sign_in_url`.  When the
exchange raises nothing has been written back; when it returns an error
dictionary the caches are written (lines 185-186) and then
`result["id_token"]` raises `KeyError`. -/
def authorized (env : Env) (args : String) (s : Session) :
    RawResult × Session :=
  match s.auth_code_flow with
  | none => (RawResult.pyError "KeyError: auth_code_flow", s)
  | some flow =>
    let s1 : Session := { s with auth_code_flow := none }
    let cache_in := s1.cacheIn
    let http_cache := env.httpUpdate (s1.msal_http_response_cache.getD "")
    match env.exchange flow args cache_in with
    | ExchangeResult.raised =>
        (RawResult.pyError "acquire_token_by_auth_code_flow raised", s1)
    | ExchangeResult.errorDict newCache =>
        let s2 : Session := { s1 with token_cache := some newCache,
                                      msal_http_response_cache := some http_cache }
        (RawResult.pyError "KeyError: id_token", s2)
    | ExchangeResult.ok idToken claims newCache =>
        let s2 : Session := { s1 with
          token_cache := some newCache,
          msal_http_response_cache := some http_cache,
          user := some { id_token := idToken, id_token_claims := claims } }
        (RawResult.ok (Response.redirect flow.post_sign_in_url), s2)

/-- The `/graph` handler (lines 201-291).  Requires a truthy `user` and
`token_cache` (line 208), a decodable ID token (lines 216-219), then
hydrates the cache, picks `get_accounts()[0]` (raising `IndexError` when no
account is cached), calls `acquire_token_silent`, writes the serialized
cache back only if `has_state_changed` (lines 269-270), always writes the
metadata cache (line 271), and finally subscripts the result with
`access_token` (line 287): a `None` result raises `TypeError`, an error
dictionary raises `KeyError`. -/
def graph (env : Env) (s : Session) : RawResult × Session :=
  match s.user with
  | none => (RawResult.unauthorized, s)
  | some u =>
    if ¬ s.tokenCacheTruthy then (RawResult.unauthorized, s)
    else if ¬ env.decodeIdToken u.id_token then
      (RawResult.unauthorized, s)
    else
      let cache := s.token_cache.getD ""
      let http_cache := env.httpUpdate (s.msal_http_response_cache.getD "")
      match env.getAccounts cache with
      | [] => (RawResult.pyError "IndexError: get_accounts", s)
      | account :: _ =>
        let so := env.silent cache account
        let s1 : Session := { s with
          token_cache := if so.changed then some so.newCache else s.token_cache,
          msal_http_response_cache := some http_cache }
        match so.result with
        | none => (RawResult.pyError "TypeError: NoneType", s1)
        | some d =>
          match d.access_token with
          | none => (RawResult.pyError "KeyError: access_token", s1)
          | some _ => (RawResult.ok (Response.render "authenticated/graph.html"), s1)

/-- The `/admin` handler (lines 293-322).  Requires a truthy `user` entry
(line 299; unlike `/graph` it does not check `token_cache`), a decodable ID
token, and a `roles` claim containing `"admin"`; otherwise raises
`Forbidden`. -/
def admin (env : Env) (s : Session) : RawResult × Session :=
  match s.user with
  | none => (RawResult.unauthorized, s)
  | some u =>
    if ¬ env.decodeIdToken u.id_token then
      (RawResult.unauthorized, s)
    else
      match u.id_token_claims.roles with
      | none => (RawResult.forbiddenRaised "User is missing a required role.", s)
      | some rs =>
        if "admin" ∈ rs then
          (RawResult.ok (Response.render "authenticated/admin.html"), s)
        else (RawResult.forbiddenRaised "User is missing a required role.", s)

/-- The `/logout` handler (lines 324-348): pop `user`, `auth_code_flow` and
`token_cache` (each with a `None` default, so never raising), keep the
metadata cache, and redirect to `url_for("index")`, i.e. `/`. -/
def logout (s : Session) : RawResult × Session :=
  (RawResult.ok (Response.redirect "/"),
   { s with user := none, auth_code_flow := none, token_cache := none })

/-- Run the matched route's handler body. -/
def runHandler (env : Env) (args : String) : Route → Session → RawResult × Session
  | .index, s => (RawResult.ok (Response.render "public/index.html"), s)
  | .authRedirect, s => authorized env args s
  | .graphRoute, s => graph env s
  | .adminRoute, s => admin env s
  | .logoutRoute, s => logout s

/-- Full request handling: run the handler, then apply Flask's error
dispatch.  A raised `Unauthorized` invokes the registered error handler
`initiate_auth_code_flow` with the matched rule; a raised `Forbidden`
becomes a 403 response; any other exception becomes a 500. -/
def handleRequest (env : Env) (args : String) (r : Route) (s : Session) :
    Response × Session :=
  match runHandler env args r s with
  | (RawResult.ok resp, s1) => (resp, s1)
  | (RawResult.unauthorized, s1) => initiate_auth_code_flow env r.rule s1
  | (RawResult.forbiddenRaised msg, s1) => (Response.forbidden msg, s1)
  | (RawResult.pyError exn, s1) => (Response.serverError exn, s1)

/-- A session holds both a pending flow and a user record. -/
def Session.hasBoth (s : Session) : Bool :=
  s.auth_code_flow.isSome && s.user.isSome

/-! Concrete fixtures used to instantiate the theorems below on closed
inputs. -/

/-- A concrete authorization request built by the identity client. -/
def flowBaseA : FlowBase :=
  { auth_uri := "https://login.example/authorize?state=st1", state := "st1" }

/-- Claims carrying an `admin` role. -/
def claimsAdmin : Claims :=
  { roles := some ["admin"], other := [("sub", "alice")] }

/-- Claims without a `roles` entry. -/
def claimsNoRoles : Claims :=
  { roles := none, other := [("sub", "bob")] }

/-- A user record whose claims carry the `admin` role. -/
def userAdmin : UserRec := { id_token := "idtokA", id_token_claims := claimsAdmin }

/-- A user record whose claims have no `roles` entry. -/
def userNoRoles : UserRec := { id_token := "idtokB", id_token_claims := claimsNoRoles }

/-- A concrete well-behaved environment: the exchange succeeds and returns a
non-empty serialized cache, the ID token decodes, one account is cached, and
silent acquisition returns an access token without changing the cache. -/
def envA : Env :=
  { initFlow := flowBaseA
    httpUpdate := fun h => h ++ "|meta"
    exchange := fun _ _ _ => ExchangeResult.ok "idtokA" claimsAdmin "cacheA"
    decodeIdToken := fun _ => true
    getAccounts := fun _ => ["acct0"]
    silent := fun c _ =>
      { result := some { access_token := some "at0" }, newCache := c ++ "+r"
        changed := false } }

/-- Like `envA` but the hydrated client has no cached account. -/
def envNoAccounts : Env := { envA with getAccounts := fun _ => [] }

/-- Like `envA` but decoding the stored ID token raises (expired token). -/
def envExpired : Env := { envA with decodeIdToken := fun _ => false }

/-- A session for a signed-in user with the `admin` role and a cached token. -/
def sessUser : Session :=
  { user := some userAdmin, auth_code_flow := none, token_cache := some "cacheA"
    msal_http_response_cache := some "meta0", extra := [("csrf", "x")] }

/-- Like `sessUser` but with no token-cache entry. -/
def sessUserNoCache : Session := { sessUser with token_cache := none }

/-- Like `sessUser` but the user has no `roles` claim. -/
def sessNoRoles : Session := { sessUser with user := some userNoRoles }

/-- The session produced by requesting `/admin` while unauthenticated: it
carries a pending flow whose post-sign-in target is `/admin`. -/
def sessAfterAdminAttempt : Session :=
  (handleRequest envA "" Route.adminRoute Session.empty).2

/-! Helper lemmas about the handlers' effect on the session. -/

/-- The begin-flow error handler always leaves the session without a user
record. -/
theorem initiate_user_none (env : Env) (rule : String) (s : Session) :
    ((initiate_auth_code_flow env rule s).2).user = none := rfl

/-- The `/admin` handler never mutates the session. -/
theorem admin_session_unchanged (env : Env) (s : Session) :
    (admin env s).2 = s := by
  unfold admin
  rcases s.user with _ | u
  · rfl
  · dsimp only
    split
    · rfl
    · rcases u.id_token_claims.roles with _ | rs
      · rfl
      · dsimp only
        split <;> rfl

/-- The `/graph` handler never touches the user entry. -/
theorem graph_preserves_user (env : Env) (s : Session) :
    ((graph env s).2).user = s.user := by
  unfold graph
  repeat' first
    | split
    | dsimp only

/-- The `/graph` handler never touches the pending-flow entry. -/
theorem graph_preserves_flow (env : Env) (s : Session) :
    ((graph env s).2).auth_code_flow = s.auth_code_flow := by
  unfold graph
  repeat' first
    | split
    | dsimp only

/-- The callback handler either leaves the session unchanged (the `KeyError`
path) or has consumed the pending-flow entry. -/
theorem authorized_flow_consumed_or_unchanged (env : Env) (args : String)
    (s : Session) :
    (authorized env args s).2 = s ∨
    ((authorized env args s).2).auth_code_flow = none := by
  unfold authorized
  rcases s.auth_code_flow with _ | flow
  · exact Or.inl rfl
  · dsimp only
    split <;> exact Or.inr rfl

/-- The final session of a request is the handler's session, or that session
passed through the begin-flow error handler. -/
theorem handleRequest_session_cases (env : Env) (args : String) (r : Route)
    (s : Session) :
    (handleRequest env args r s).2 = (runHandler env args r s).2 ∨
    (handleRequest env args r s).2
      = (initiate_auth_code_flow env r.rule (runHandler env args r s).2).2 := by
  unfold handleRequest
  rcases h : runHandler env args r s with ⟨rr, s1⟩
  cases rr <;> simp [h]

/-! Claim theorems. -/

/-- C10: for every session, `/logout` removes the user, pending-flow and
token-cache entries, leaves the metadata-cache entry and every other
session field unchanged, and responds with a redirect to the index
route `/`. -/
theorem logout_clears_auth_state_keeps_metadata (env : Env) (args : String)
    (s : Session) :
    handleRequest env args Route.logoutRoute s
      = (Response.redirect "/",
         { s with user := none, auth_code_flow := none, token_cache := none }) ∧
    (handleRequest env args Route.logoutRoute s).2.msal_http_response_cache
      = s.msal_http_response_cache ∧
    (handleRequest env args Route.logoutRoute s).2.extra = s.extra :=
  ⟨rfl, rfl, rfl⟩

/-- C2: a request to a protected route (`/graph` or `/admin`) whose session
has no user entry is answered with a redirect to the identity provider's
authorization endpoint (the `auth_uri` of the flow built by the identity
client), and the pending-flow record, including the post-sign-in target
route, is stored in the session. -/
theorem protected_route_without_user_begins_flow
    (env : Env) (args : String) (r : Route) (s : Session)
    (hr : r = Route.graphRoute ∨ r = Route.adminRoute)
    (hu : s.user = none) :
    handleRequest env args r s
      = (Response.redirect env.initFlow.auth_uri,
         { s with user := none,
                  auth_code_flow :=
                    some { base := env.initFlow, post_sign_in_url := r.rule },
                  msal_http_response_cache :=
                    some (env.httpUpdate (s.msal_http_response_cache.getD "")) }) := by
  rcases hr with h | h <;> subst h <;>
    simp [handleRequest, runHandler, graph, admin, initiate_auth_code_flow, hu,
      Route.rule]

/-- Witness for C2: on the empty session, `/admin` redirects to the
authorization endpoint and records `/admin` as the post-sign-in target. -/
theorem protected_route_without_user_begins_flow_witness :
    handleRequest envA "" Route.adminRoute Session.empty
      = (Response.redirect envA.initFlow.auth_uri,
         { Session.empty with
             user := none,
             auth_code_flow :=
               some { base := envA.initFlow, post_sign_in_url := "/admin" },
             msal_http_response_cache := some (envA.httpUpdate "") }) :=
  protected_route_without_user_begins_flow envA "" Route.adminRoute Session.empty
    (Or.inr rfl) rfl

/-- C6: an authenticated `/admin` request (user present, ID token decodes)
whose claims have no `roles` entry, or whose `roles` array lacks `admin`,
receives the `Forbidden` outcome with the session unchanged — so it never
results in a re-authentication redirect. -/
theorem admin_without_role_forbidden (env : Env) (args : String)
    (s : Session) (u : UserRec)
    (hu : s.user = some u)
    (hdec : env.decodeIdToken u.id_token = true)
    (hrole : u.id_token_claims.roles = none ∨
             ∃ rs, u.id_token_claims.roles = some rs ∧ "admin" ∉ rs) :
    handleRequest env args Route.adminRoute s
      = (Response.forbidden "User is missing a required role.", s) := by
  rcases hrole with h | ⟨rs, hrs, hna⟩
  · simp [handleRequest, runHandler, admin, hu, hdec, h]
  · simp [handleRequest, runHandler, admin, hu, hdec, hrs, hna]

/-- Witness for C6: the signed-in user without a `roles` claim is denied
`/admin` with a `Forbidden` response. -/
theorem admin_without_role_forbidden_witness :
    handleRequest envA "" Route.adminRoute sessNoRoles
      = (Response.forbidden "User is missing a required role.", sessNoRoles) :=
  admin_without_role_forbidden envA "" sessNoRoles userNoRoles rfl rfl (Or.inl rfl)

/-- C1: a callback to `/auth/redirect` whose session holds a pending flow
and whose code exchange succeeds leaves the session with the serialized
token cache produced by the exchange (non-empty by the MSAL contract that a
successful exchange stores tokens in the cache, taken here as the
hypothesis `hne`), stores the user record with the raw ID token and its
decoded claims, and redirects to the post-sign-in target recorded when the
flow began. -/
theorem callback_success_stores_tokens_and_redirects
    (env : Env) (args : String) (s : Session) (flow : Flow)
    (idToken : String) (claims : Claims) (newCache : String)
    (hflow : s.auth_code_flow = some flow)
    (hex : env.exchange flow args s.cacheIn
             = ExchangeResult.ok idToken claims newCache)
    (hne : newCache ≠ "") :
    (handleRequest env args Route.authRedirect s).1
        = Response.redirect flow.post_sign_in_url ∧
    (handleRequest env args Route.authRedirect s).2.token_cache = some newCache ∧
    newCache ≠ "" ∧
    (handleRequest env args Route.authRedirect s).2.user
        = some { id_token := idToken, id_token_claims := claims } := by
  have hc : ({ s with auth_code_flow := none } : Session).cacheIn = s.cacheIn := rfl
  simp [handleRequest, runHandler, authorized, hflow, hc, hex, hne]

/-- Witness for C1, end to end: after an unauthenticated `/admin` request
recorded `/admin` as the target, a successful callback stores the non-empty
cache `cacheA` and the user record, and redirects to `/admin`. -/
theorem callback_success_stores_tokens_and_redirects_witness :
    (handleRequest envA "q" Route.authRedirect sessAfterAdminAttempt).1
        = Response.redirect "/admin" ∧
    (handleRequest envA "q" Route.authRedirect sessAfterAdminAttempt).2.token_cache
        = some "cacheA" ∧
    ("cacheA" : String) ≠ "" ∧
    (handleRequest envA "q" Route.authRedirect sessAfterAdminAttempt).2.user
        = some { id_token := "idtokA", id_token_claims := claimsAdmin } :=
  callback_success_stores_tokens_and_redirects envA "q" sessAfterAdminAttempt
    { base := flowBaseA, post_sign_in_url := "/admin" } "idtokA" claimsAdmin
    "cacheA" rfl rfl (by decide)

/-- C3 is falsified as stated: on a session with no pending-flow record the
callback performs no exchange, but it is not treated as unauthenticated —
`session.pop` raises an uncaught `KeyError`, the response is a 500 server
error rather than the begin-flow redirect, and no new flow is stored. -/
theorem callback_without_flow_counterexample :
    sessUser.auth_code_flow = none ∧
    (handleRequest envA "" Route.authRedirect sessUser).1
      = Response.serverError "KeyError: auth_code_flow" ∧
    (handleRequest envA "" Route.authRedirect sessUser).1
      ≠ Response.redirect envA.initFlow.auth_uri ∧
    ((handleRequest envA "" Route.authRedirect sessUser).2).auth_code_flow
      = none :=
  ⟨rfl, rfl, by decide, rfl⟩

/-- C3 (amended): a callback request whose session holds no pending-flow
record performs no token exchange (the result is the same for every
environment, in particular independent of the exchange function), but the
request is not treated as unauthenticated: `session.pop` raises an
uncaught `KeyError`, producing a server error and leaving the session
unchanged, so the flow does not restart. -/
theorem callback_without_flow_no_exchange_crashes
    (env : Env) (args : String) (s : Session)
    (hflow : s.auth_code_flow = none) :
    handleRequest env args Route.authRedirect s
      = (Response.serverError "KeyError: auth_code_flow", s) := by
  simp [handleRequest, runHandler, authorized, hflow]

/-- Witness for the amended C3 on a concrete session without a pending
flow. -/
theorem callback_without_flow_no_exchange_crashes_witness :
    handleRequest envA "x" Route.authRedirect sessUser
      = (Response.serverError "KeyError: auth_code_flow", sessUser) :=
  callback_without_flow_no_exchange_crashes envA "x" sessUser rfl

/-- C4 is falsified as stated: with a valid session (user present, cache
present, ID token decodes) but no cached account, `/graph` does not force a
fresh authorization-code flow — subscripting `get_accounts()` raises an
uncaught `IndexError`, the response is a 500 server error, and no flow is
stored. -/
theorem graph_silent_failure_counterexample :
    (handleRequest envNoAccounts "" Route.graphRoute sessUser).1
      = Response.serverError "IndexError: get_accounts" ∧
    (handleRequest envNoAccounts "" Route.graphRoute sessUser).1
      ≠ Response.redirect envNoAccounts.initFlow.auth_uri ∧
    ((handleRequest envNoAccounts "" Route.graphRoute sessUser).2).auth_code_flow
      = none :=
  ⟨rfl, by decide, rfl⟩

/-- C4 (amended): on `/graph` with a valid session, when silent acquisition
cannot produce a usable access token (no cached account, a `None` result,
or a result without an access token), the handler does not recover: the
request fails with an unhandled exception (server error) and no fresh
authorization-code flow is started. -/
theorem graph_silent_failure_crashes
    (env : Env) (args : String) (s : Session) (u : UserRec)
    (hu : s.user = some u)
    (htc : s.tokenCacheTruthy = true)
    (hdec : env.decodeIdToken u.id_token = true)
    (hfail : env.getAccounts (s.token_cache.getD "") = [] ∨
      (∃ a rest, env.getAccounts (s.token_cache.getD "") = a :: rest ∧
        ((env.silent (s.token_cache.getD "") a).result = none ∨
         ∃ d, (env.silent (s.token_cache.getD "") a).result = some d ∧
              d.access_token = none))) :
    (∃ exn, (handleRequest env args Route.graphRoute s).1
              = Response.serverError exn) ∧
    ((handleRequest env args Route.graphRoute s).2).auth_code_flow
      = s.auth_code_flow := by
  refine ⟨?_, ?_⟩
  · rcases hfail with hacc | ⟨a, rest, hacc, hres⟩
    · exact ⟨"IndexError: get_accounts",
        by simp [handleRequest, runHandler, graph, hu, htc, hdec, hacc]⟩
    · rcases hres with hnone | ⟨d, hd, hat⟩
      · exact ⟨"TypeError: NoneType",
          by simp [handleRequest, runHandler, graph, hu, htc, hdec, hacc, hnone]⟩
      · exact ⟨"KeyError: access_token",
          by simp [handleRequest, runHandler, graph, hu, htc, hdec, hacc, hd, hat]⟩
  · rcases hfail with hacc | ⟨a, rest, hacc, hres⟩
    · simp [handleRequest, runHandler, graph, hu, htc, hdec, hacc]
    · rcases hres with hnone | ⟨d, hd, hat⟩
      · simp [handleRequest, runHandler, graph, hu, htc, hdec, hacc, hnone]
      · simp [handleRequest, runHandler, graph, hu, htc, hdec, hacc, hd, hat]

/-- Witness for the amended C4: the no-cached-account failure on a concrete
valid session crashes instead of redirecting. -/
theorem graph_silent_failure_crashes_witness :
    (∃ exn, (handleRequest envNoAccounts "" Route.graphRoute sessUser).1
              = Response.serverError exn) ∧
    ((handleRequest envNoAccounts "" Route.graphRoute sessUser).2).auth_code_flow
      = sessUser.auth_code_flow :=
  graph_silent_failure_crashes envNoAccounts "" sessUser userAdmin rfl rfl rfl
    (Or.inl rfl)

/-- C5 is falsified as stated: a `/admin` request whose session has a valid
user but no token-cache entry is not classified as Unauthenticated — the
admin view is rendered, with no begin-flow redirect and no flow stored. -/
theorem admin_skips_token_cache_check_counterexample :
    sessUserNoCache.token_cache = none ∧
    (handleRequest envA "" Route.adminRoute sessUserNoCache).1
      = Response.render "authenticated/admin.html" ∧
    (handleRequest envA "" Route.adminRoute sessUserNoCache).1
      ≠ Response.redirect envA.initFlow.auth_uri ∧
    ((handleRequest envA "" Route.adminRoute sessUserNoCache).2).auth_code_flow
      = none :=
  ⟨rfl, rfl, by decide, rfl⟩

/-- C5 (amended): `/graph` classifies a session lacking a user entry or a
truthy token-cache entry as Unauthenticated, and `/admin` classifies a
session lacking a user entry as Unauthenticated; in those cases the
begin-flow redirect is triggered before any token validation or role check
(the outcome is `initiate_auth_code_flow`, which consults neither).
`/admin` performs no token-cache check. -/
theorem gate_unauthenticated_checks
    (env : Env) (args : String) (r : Route) (s : Session)
    (h : (r = Route.graphRoute ∧
            (s.user = none ∨ s.tokenCacheTruthy = false)) ∨
         (r = Route.adminRoute ∧ s.user = none)) :
    handleRequest env args r s = initiate_auth_code_flow env r.rule s := by
  rcases h with ⟨hr, hu | htc⟩ | ⟨hr, hu⟩ <;> subst hr
  · simp [handleRequest, runHandler, graph, hu]
  · rcases hus : s.user with _ | u
    · simp [handleRequest, runHandler, graph, hus]
    · simp [handleRequest, runHandler, graph, hus, htc]
  · simp [handleRequest, runHandler, admin, hu]

/-- Witness for the amended C5: the empty session on `/graph` goes through
the begin-flow error handler. -/
theorem gate_unauthenticated_checks_witness :
    handleRequest envA "" Route.graphRoute Session.empty
      = initiate_auth_code_flow envA Route.graphRoute.rule Session.empty :=
  gate_unauthenticated_checks envA "" Route.graphRoute Session.empty
    (Or.inl ⟨rfl, Or.inl rfl⟩)

/-- C7: on a protected route, a session whose stored ID token fails to
decode produces exactly the same outcome (response and final session) as
the same session with no user at all, and that outcome is the begin-flow
redirect to the authorization endpoint — the failure is never silently
ignored. -/
theorem invalid_token_same_as_no_user
    (env : Env) (args : String) (r : Route) (s : Session) (u : UserRec)
    (hr : r = Route.graphRoute ∨ r = Route.adminRoute)
    (hu : s.user = some u)
    (hdec : env.decodeIdToken u.id_token = false) :
    handleRequest env args r s
      = handleRequest env args r { s with user := none } ∧
    (handleRequest env args r s).1 = Response.redirect env.initFlow.auth_uri := by
  rcases hr with h | h <;> subst h
  · by_cases htc : s.tokenCacheTruthy = true
    · constructor <;>
        simp [handleRequest, runHandler, graph, hu, hdec, htc,
          initiate_auth_code_flow]
    · have htc2 : ({ s with user := none } : Session).tokenCacheTruthy
          = s.tokenCacheTruthy := rfl
      constructor <;>
        simp [handleRequest, runHandler, graph, hu, hdec, htc, htc2,
          initiate_auth_code_flow]
  · constructor <;>
      simp [handleRequest, runHandler, admin, hu, hdec, initiate_auth_code_flow]

/-- Witness for C7 on a concrete session with an expired ID token. -/
theorem invalid_token_same_as_no_user_witness :
    handleRequest envExpired "" Route.graphRoute sessUser
      = handleRequest envExpired "" Route.graphRoute { sessUser with user := none } ∧
    (handleRequest envExpired "" Route.graphRoute sessUser).1
      = Response.redirect envExpired.initFlow.auth_uri :=
  invalid_token_same_as_no_user envExpired "" Route.graphRoute sessUser userAdmin
    (Or.inl rfl) rfl rfl

/-- C8: the mutual-exclusion invariant — a session never holding both a
pending-flow record and a user record — is preserved by every route:
initiating a flow removes the user before storing the flow, and the
callback consumes the flow before storing the user. -/
theorem pending_flow_and_user_mutually_exclusive
    (env : Env) (args : String) (r : Route) (s : Session)
    (h : s.hasBoth = false) :
    ((handleRequest env args r s).2).hasBoth = false := by
  have hinit : ∀ rule s1, ((initiate_auth_code_flow env rule s1).2).hasBoth = false := by
    intro rule s1
    simp [Session.hasBoth, initiate_user_none]
  have hhandler : ((runHandler env args r s).2).hasBoth = false := by
    cases r
    · exact h
    · rcases authorized_flow_consumed_or_unchanged env args s with he | hf
      · simpa [runHandler, he]
      · simp [runHandler, Session.hasBoth, hf]
    · have h1 := graph_preserves_user env s
      have h2 := graph_preserves_flow env s
      simp only [runHandler, Session.hasBoth, h1, h2]
      simpa [Session.hasBoth] using h
    · simpa [runHandler, admin_session_unchanged env s]
    · simp [runHandler, logout, Session.hasBoth]
  rcases handleRequest_session_cases env args r s with hs | hs <;> rw [hs]
  · exact hhandler
  · exact hinit _ _

/-- Witness for C8 on a concrete authenticated session going through
`/graph`. -/
theorem pending_flow_and_user_mutually_exclusive_witness :
    sessUser.hasBoth = false ∧
    ((handleRequest envA "" Route.graphRoute sessUser).2).hasBoth = false :=
  ⟨by decide,
   pending_flow_and_user_mutually_exclusive envA "" Route.graphRoute sessUser
     (by decide)⟩

/-- C9: on a `/graph` request whose silent token acquisition succeeds, the
session's token-cache field is rewritten exactly when the in-memory cache
reports a state change (`has_state_changed`); otherwise the stored value is
left untouched. -/
theorem graph_cache_rewritten_iff_changed
    (env : Env) (args : String) (s : Session) (u : UserRec)
    (so : SilentOutcome) (d : SilentDict) (tok a : String) (rest : List String)
    (hu : s.user = some u)
    (htc : s.tokenCacheTruthy = true)
    (hdec : env.decodeIdToken u.id_token = true)
    (hacc : env.getAccounts (s.token_cache.getD "") = a :: rest)
    (hso : env.silent (s.token_cache.getD "") a = so)
    (hres : so.result = some d)
    (htok : d.access_token = some tok) :
    (handleRequest env args Route.graphRoute s).1
      = Response.render "authenticated/graph.html" ∧
    ((handleRequest env args Route.graphRoute s).2).token_cache
      = (if so.changed then some so.newCache else s.token_cache) := by
  constructor <;>
    simp [handleRequest, runHandler, graph, hu, htc, hdec, hacc, hso, hres, htok]

/-- Witness for C9 on a concrete session where the silent call reports an
unchanged cache, so the stored blob `cacheA` is kept as is. -/
theorem graph_cache_rewritten_iff_changed_witness :
    (handleRequest envA "" Route.graphRoute sessUser).1
      = Response.render "authenticated/graph.html" ∧
    ((handleRequest envA "" Route.graphRoute sessUser).2).token_cache
      = some "cacheA" :=
  graph_cache_rewritten_iff_changed envA "" sessUser userAdmin
    (envA.silent (sessUser.token_cache.getD "") "acct0")
    { access_token := some "at0" } "at0" "acct0" []
    rfl rfl rfl rfl rfl rfl rfl

end MsalWebApp
